import Mathlib

/-!
Shallow embedding of the event-driven indexing core of the teeception repository
(`pkg/indexer/agent_usage_indexer_db.go`, `pkg/indexer/agent_indexer.go`,
`pkg/indexer/const.go` (token indexer), `pkg/ui_service/service.go`).

Modelling conventions:
* 32-byte chain addresses / `felt.Felt` values are modelled as `Nat` (`Addr`); the felt's
  `Bytes()` form is injective, and the zero felt (`new(felt.Felt)`) is `0`.
* Go maps are modelled as functions into `Option`; `setKey`/`delKey` give store/delete.
* Nullable Go pointers (`*big.Int`, `*felt.Felt` fields) are `Option` values; `none` is `nil`.
* `uint64` counters are `Nat` (the indexer only ever increments them one event at a time,
  so 2^64 wraparound is unreachable in any run the spec talks about).
* `time.Time` is a `Nat` timestamp; `0` is Go's zero instant (`Time.IsZero`).
-/

/-- A 32-byte chain address (a `felt.Felt` identity). -/
abbrev Addr := Nat

/-- Store a binding in a map modelled as a function into `Option`. -/
def setKey {κ α : Type} [DecidableEq κ] (f : κ → Option α) (k : κ) (v : α) : κ → Option α :=
  fun q => if q = k then some v else f q

/-- Delete a binding from a map modelled as a function into `Option`. -/
def delKey {κ α : Type} [DecidableEq κ] (f : κ → Option α) (k : κ) : κ → Option α :=
  fun q => if q = k then none else f q

/-! ## Events

Typed chain events (`pkg/indexer` event parsing). Each raw event carries the emitting
contract address (`ev.Raw.FromAddress`); the payload is the already-classified body
(`ToAgentRegisteredEvent`, `ToPromptPaidEvent`, ...). -/

inductive EventPayload where
  | agentRegistered (agent creator : Addr) (name systemPrompt : String)
      (promptPrice : Nat) (tokenAddress : Addr) (endTime : Nat)
  | promptPaid (agent : Addr) (promptID tweetID : Nat) (prompt : String)
  | promptConsumed (agent : Addr) (promptID : Nat) (drainedTo : Addr)
  | tokenAdded (token : Addr) (minPromptPrice minInitialBalance : Nat)
  | tokenRemoved (token : Addr)

structure Event where
  fromAddress : Addr
  payload : EventPayload

/-! ## Agent usage indexer database (`pkg/indexer/agent_usage_indexer_db.go`) -/

/-- `PromptPaidEvent` (the fields `StorePromptPaidData` reads). -/
structure PromptPaidEvent where
  promptID : Nat
  tweetID : Nat
  prompt : String

/-- `PromptConsumedEvent` (the fields `StorePromptConsumedData` reads). -/
structure PromptConsumedEvent where
  promptID : Nat
  drainedTo : Addr

/-- `AgentUsageIndexerDatabaseInMemoryPromptCacheData`. -/
structure PromptCacheData where
  tweetID : Nat
  prompt : String
deriving DecidableEq

/-- `AgentUsageLatestPrompt`. -/
structure AgentUsageLatestPrompt where
  promptID : Nat
  tweetID : Nat
  prompt : String
  isSuccess : Bool
  drainedTo : Addr
deriving DecidableEq

/-- `AgentUsage`. -/
structure AgentUsage where
  breakAttempts : Nat
  isDrained : Bool
  latestPrompts : List AgentUsageLatestPrompt
deriving DecidableEq

/-- `AgentUsageIndexerDatabaseInMemory`. The prompt cache is keyed in Go by the string
`fmt.Sprintf("%s-%d", addr, promptID)`; since `addr` is a fixed-width 32-byte array printed
as its raw bytes, that string determines and is determined by the pair `(addr, promptID)`,
so the model keys the cache by the pair directly. LRU capacity eviction and the 30-minute
TTL are wall-clock behaviours; the model is the no-eviction abstraction, and theorems that
depend on an entry still being present take that as a hypothesis. -/
structure UsageDb where
  usages : Addr → Option AgentUsage
  maxPrompts : Nat
  promptCache : Addr × Nat → Option PromptCacheData
  lastIndexedBlock : Nat

/-- `getOrCreateAgentUsage`. -/
def getOrCreateAgentUsage (db : UsageDb) (addr : Addr) : AgentUsage :=
  match db.usages addr with
  | some u => u
  | none => { breakAttempts := 0, isDrained := false, latestPrompts := [] }

/-- `StoreAgent`. -/
def StoreAgent (db : UsageDb) (addr : Addr) : UsageDb :=
  { db with usages := setKey db.usages addr (getOrCreateAgentUsage db addr) }

/-- `GetAgentExists`. -/
def GetAgentExists (db : UsageDb) (addr : Addr) : Bool :=
  (db.usages addr).isSome

/-- `StorePromptPaidData`: insert the tweet id and prompt text into the prompt cache. -/
def StorePromptPaidData (db : UsageDb) (addr : Addr) (ev : PromptPaidEvent) : UsageDb :=
  { db with
      promptCache :=
        setKey db.promptCache (addr, ev.promptID) { tweetID := ev.tweetID, prompt := ev.prompt } }

/-- `StorePromptConsumedData`: increment `BreakAttempts`, decide success by
`DrainedTo.Bytes() == addr`, consume the cache entry (zero-value data on a miss),
set `IsDrained` on success, append to `LatestPrompts` and drop the oldest entry
when the length exceeds `maxPrompts`. -/
def StorePromptConsumedData (db : UsageDb) (addr : Addr) (ev : PromptConsumedEvent) : UsageDb :=
  let usage0 := getOrCreateAgentUsage db addr
  let usage1 := { usage0 with breakAttempts := usage0.breakAttempts + 1 }
  let succeeded : Bool := if ev.drainedTo = addr then false else true
  let drainAddress : Addr := if ev.drainedTo = addr then 0 else ev.drainedTo
  let key : Addr × Nat := (addr, ev.promptID)
  let cacheData : PromptCacheData :=
    match db.promptCache key with
    | none => { tweetID := 0, prompt := "" }
    | some d => d
  let promptCache1 : Addr × Nat → Option PromptCacheData :=
    match db.promptCache key with
    | none => db.promptCache
    | some _ => delKey db.promptCache key
  let usage2 := if succeeded then { usage1 with isDrained := true } else usage1
  let appended := usage2.latestPrompts ++
    [{ promptID := ev.promptID, tweetID := cacheData.tweetID, prompt := cacheData.prompt,
       isSuccess := succeeded, drainedTo := drainAddress }]
  let latest := if db.maxPrompts < appended.length then appended.tail else appended
  { db with
      usages := setKey db.usages addr { usage2 with latestPrompts := latest },
      promptCache := promptCache1 }

/-- `GetAgentUsage`. -/
def GetAgentUsage (db : UsageDb) (addr : Addr) : Option AgentUsage :=
  db.usages addr

/-! ## Agent indexer (`pkg/indexer/agent_indexer.go`) -/

/-- `AgentInfo`. `Address`, `Creator`, `PromptPrice` and `TokenAddress` are nullable
pointers in Go, hence `Option` here. -/
structure AgentInfo where
  address : Option Addr
  creator : Option Addr
  name : String
  systemPrompt : String
  promptPrice : Option Nat
  tokenAddress : Option Addr
  endTime : Nat
deriving DecidableEq

instance : Inhabited AgentInfo :=
  ⟨{ address := none, creator := none, name := "", systemPrompt := "",
     promptPrice := none, tokenAddress := none, endTime := 0 }⟩

/-- Modelled from the spec: `AgentIndexerDatabaseInMemory` is not under src/ (only the
`AgentIndexerDatabase` interface and its callers are). Per the spec it keeps `byAddress`
and `byCreator`, where `byCreator` maps a creator to the ordered list of its agent
addresses, insertion order = registration order. -/
structure AgentDb where
  infos : Addr → Option AgentInfo
  byCreator : Addr → List Addr
  lastIndexedBlock : Nat

/-- Modelled from the spec: `SetAgentInfo` stores the info under `byAddress` and appends
the address to the creator's ordered list. -/
def SetAgentInfo (db : AgentDb) (addr : Addr) (info : AgentInfo) : AgentDb :=
  { db with
      infos := setKey db.infos addr info
      byCreator :=
        match info.creator with
        | some c => fun q => if q = c then db.byCreator c ++ [addr] else db.byCreator q
        | none => db.byCreator }

/-- Modelled from the spec: `GetAddressesByCreator` returns the creator's ordered agent list. -/
def GetAddressesByCreator (db : AgentDb) (creator : Addr) : List Addr :=
  db.byCreator creator

/-- `AgentIndexer` state: its database plus the configured registry address. -/
structure AgentIndexerState where
  db : AgentDb
  registryAddress : Addr

/-- `onAgentRegistered`: drop (with a warning) events not emitted by the registry,
otherwise parse and store the `AgentInfo`. A payload of a different kind corresponds to
`ToAgentRegisteredEvent` failing, which logs and returns without mutating. -/
def onAgentRegistered (i : AgentIndexerState) (ev : Event) : AgentIndexerState :=
  if ev.fromAddress = i.registryAddress then
    match ev.payload with
    | .agentRegistered agent creator name sp price token endT =>
        { i with
            db := SetAgentInfo i.db agent
              { address := some agent, creator := some creator, name := name,
                systemPrompt := sp, promptPrice := some price,
                tokenAddress := some token, endTime := endT } }
    | _ => i
  else i

/-- `AgentsByCreatorResult`. -/
structure AgentsByCreatorResult where
  agents : List AgentInfo
  agentCount : Nat
  lastBlock : Nat
deriving DecidableEq

/-- `GetAgentsByCreator`: report not-found when `len(agents) <= start`; otherwise
return the infos of `agents[start:end]` with `end = min(start+limit, len(agents))`
(a missing info is logged and left as the zero `AgentInfo`), the total count and the
last indexed block. -/
def GetAgentsByCreator (i : AgentIndexerState) (creator : Addr) (start limit : Nat) :
    Option AgentsByCreatorResult :=
  let agents := GetAddressesByCreator i.db creator
  if agents.length ≤ start then none
  else
    let e := if agents.length < start + limit then agents.length else start + limit
    some
      { agents := ((agents.drop start).take (e - start)).map
          (fun a => (i.db.infos a).getD default)
        agentCount := agents.length
        lastBlock := i.db.lastIndexedBlock }

/-! RPC plumbing for the on-demand fetch path. -/

inductive BlockTag where
  | latest
  | number (n : Nat)
deriving DecidableEq

/-- An RPC `Call` as issued through `client.Do` / `provider.Call`. -/
structure RpcCall where
  contractAddress : Addr
  selector : String
  calldata : List Addr
  blockTag : BlockTag
deriving DecidableEq

def isAgentRegisteredSelector : String := "is_agent_registered"
def getNameSelector : String := "get_name"
def getSystemPromptSelector : String := "get_system_prompt"

/-- The external collaborators of `fetchAgentInfo`: the RPC provider (responses are felt
lists, modelled as `List Nat`) and `starknetgoutils.ByteArrFeltToString`. -/
structure FetchEnv where
  rpcCall : RpcCall → Except String (List Nat)
  byteArrToString : List Nat → Except String String

/-- `fetchAgentInfo`: call `is_agent_registered` on the registry, then `get_name` and
`get_system_prompt` on the agent, all against the "latest" block tag; parse the two
byte-array results; on success return an `AgentInfo` populating only `Address`, `Name`
and `SystemPrompt`. The second component is the trace of RPC calls issued.
(Go indexes `isAgentRegisteredResp[0]`, which would panic on an empty response; the
model folds that unreachable case into the "agent not registered" error.) -/
def fetchAgentInfo (registry : Addr) (env : FetchEnv) (addr : Addr) :
    Except String AgentInfo × List RpcCall :=
  let c1 : RpcCall :=
    { contractAddress := registry, selector := isAgentRegisteredSelector,
      calldata := [addr], blockTag := .latest }
  match env.rpcCall c1 with
  | .error e => (.error ("is_agent_registered call failed: " ++ e), [c1])
  | .ok resp =>
    if resp.head? ≠ some 1 then (.error "agent not registered", [c1])
    else
      let c2 : RpcCall :=
        { contractAddress := addr, selector := getNameSelector,
          calldata := [], blockTag := .latest }
      match env.rpcCall c2 with
      | .error e => (.error ("get_name call failed: " ++ e), [c1, c2])
      | .ok nameResp =>
        match env.byteArrToString nameResp with
        | .error e => (.error ("parse get_name failed: " ++ e), [c1, c2])
        | .ok name =>
          let c3 : RpcCall :=
            { contractAddress := addr, selector := getSystemPromptSelector,
              calldata := [], blockTag := .latest }
          match env.rpcCall c3 with
          | .error e => (.error ("system_prompt call failed: " ++ e), [c1, c2, c3])
          | .ok spResp =>
            match env.byteArrToString spResp with
            | .error e => (.error ("parse system_prompt failed: " ++ e), [c1, c2, c3])
            | .ok sp =>
              (.ok { address := some addr, creator := none, name := name,
                     systemPrompt := sp, promptPrice := none, tokenAddress := none,
                     endTime := 0 }, [c1, c2, c3])

/-- `GetOrFetchAgentInfo`: return the cached info when present; otherwise, when
`lastIndexedBlock >= block`, fail with "agent not found" without touching the RPC;
otherwise fall through to `fetchAgentInfo`. The second component is the RPC trace. -/
def GetOrFetchAgentInfo (i : AgentIndexerState) (env : FetchEnv) (addr : Addr) (block : Nat) :
    Except String AgentInfo × List RpcCall :=
  match i.db.infos addr with
  | some info => (.ok info, [])
  | none =>
    if block ≤ i.db.lastIndexedBlock then (.error "agent not found", [])
    else fetchAgentInfo i.registryAddress env addr

/-! ## Token indexer (`pkg/indexer/const.go`, second compilation unit) -/

/-- `TokenInfo`. `Rate` is a nullable `*big.Int`; `RateTime` is a `time.Time` whose zero
instant is modelled by `0`. -/
structure TokenInfo where
  minPromptPrice : Nat
  minInitialBalance : Nat
  rate : Option Nat
  rateTime : Nat
deriving DecidableEq

/-- The token database: a map from token address to `TokenInfo` plus the watermark. -/
structure TokenDb where
  tokens : Addr → Option TokenInfo
  lastIndexedBlock : Nat

/-- Modelled from the spec: `TokenIndexerDatabaseInMemory.SetTokenInfo` is not under src/
(only the `TokenIndexerDatabase` interface and its callers are). Per the spec, storing a
nil `TokenInfo` (the `TokenRemoved` path) sets the entry to a sentinel with
`minPromptPrice = 0` while preserving the last-known `rate`/`rateTime` until explicit
purge; storing a non-nil info stores it as given. -/
def SetTokenInfo (db : TokenDb) (token : Addr) (info : Option TokenInfo) : TokenDb :=
  match info with
  | some i => { db with tokens := setKey db.tokens token i }
  | none =>
    let sentinel : TokenInfo :=
      match db.tokens token with
      | some old =>
          { minPromptPrice := 0, minInitialBalance := 0,
            rate := old.rate, rateTime := old.rateTime }
      | none => { minPromptPrice := 0, minInitialBalance := 0, rate := none, rateTime := 0 }
    { db with tokens := setKey db.tokens token sentinel }

/-- `TokenIndexer` state: its database plus the configured registry address. -/
structure TokenIndexerState where
  db : TokenDb
  registryAddress : Addr

/-- `onTokenAdded`: ignore events from a non-registry address; otherwise store a fresh
`TokenInfo` with only the two minimums set (`Rate` nil, `RateTime` zero). -/
def onTokenAdded (s : TokenIndexerState) (ev : Event) : TokenIndexerState :=
  if ev.fromAddress = s.registryAddress then
    match ev.payload with
    | .tokenAdded token mpp mib =>
        { s with
            db := SetTokenInfo s.db token
              (some { minPromptPrice := mpp, minInitialBalance := mib,
                      rate := none, rateTime := 0 }) }
    | _ => s
  else s

/-- `onTokenRemoved`: ignore events from a non-registry address; otherwise store nil
for the token (`SetTokenInfo(token, nil)`). -/
def onTokenRemoved (s : TokenIndexerState) (ev : Event) : TokenIndexerState :=
  if ev.fromAddress = s.registryAddress then
    match ev.payload with
    | .tokenRemoved token => { s with db := SetTokenInfo s.db token none }
    | _ => s
  else s

/-- `GetTokenInfo`: the plain map lookup of the token database. -/
def GetTokenInfo (db : TokenDb) (token : Addr) : Option TokenInfo :=
  db.tokens token

/-- `GetTokenRate`: `(nil, false)` when the token has no entry or its `RateTime` is the
zero instant; otherwise `(rate, true)`. -/
def GetTokenRate (db : TokenDb) (token : Addr) : Option Nat × Bool :=
  match GetTokenInfo db token with
  | none => (none, false)
  | some info => if info.rateTime = 0 then (none, false) else (info.rate, true)

/-- `GetTokenMinPromptPrice`: `(nil, false)` when the token has no entry; otherwise
`(minPromptPrice, true)`. -/
def GetTokenMinPromptPrice (db : TokenDb) (token : Addr) : Option Nat × Bool :=
  match GetTokenInfo db token with
  | none => (none, false)
  | some info => (some info.minPromptPrice, true)

/-! ## System composition (agent projection + usage projection)

The `AgentUsageIndexer` event loop is not under src/ (only its database is), so it is
modelled from the spec. -/

/-- Modelled from the spec: the `AgentUsageIndexer` event loop is not under src/. It
subscribes to the registration and prompt streams; an `AgentRegistered` event from the
registry records the agent (`StoreAgent`), and prompt events are applied through the
database writer for agents the usage projection knows (unknown agents are dropped with a
log), which keeps the spec invariant "registration precedes usage". -/
def usageOnEvent (registry : Addr) (db : UsageDb) (ev : Event) : UsageDb :=
  match ev.payload with
  | .agentRegistered agent _ _ _ _ _ _ =>
      if ev.fromAddress = registry then StoreAgent db agent else db
  | .promptPaid agent pid tid prompt =>
      if GetAgentExists db agent then
        StorePromptPaidData db agent { promptID := pid, tweetID := tid, prompt := prompt }
      else db
  | .promptConsumed agent pid drainedTo =>
      if GetAgentExists db agent then
        StorePromptConsumedData db agent { promptID := pid, drainedTo := drainedTo }
      else db
  | _ => db

/-- The pair of projections the registration-precedes-usage invariant talks about. -/
structure SystemState where
  agent : AgentIndexerState
  usage : UsageDb

/-- Apply one event to both projections (each subscriber receives its own copy of the
event stream). -/
def applySystemEvent (s : SystemState) (ev : Event) : SystemState :=
  { agent := onAgentRegistered s.agent ev
    usage := usageOnEvent s.agent.registryAddress s.usage ev }

/-- The empty initial state of both projections. -/
def initSystem (registry maxPrompts : Nat) : SystemState :=
  { agent :=
      { db := { infos := fun _ => none, byCreator := fun _ => [], lastIndexedBlock := 0 }
        registryAddress := registry }
    usage :=
      { usages := fun _ => none, maxPrompts := maxPrompts,
        promptCache := fun _ => none, lastIndexedBlock := 0 } }

/-- Apply a sequence of events from the empty initial state. -/
def applyEvents (registry maxPrompts : Nat) (evs : List Event) : SystemState :=
  evs.foldl applySystemEvent (initSystem registry maxPrompts)

/-- The registration-precedes-usage invariant: every address with a usage entry has an
`AgentInfo` entry. -/
def UsageBackedByInfo (s : SystemState) : Prop :=
  ∀ X : Addr, (s.usage.usages X).isSome → (s.agent.db.infos X).isSome

/-! ## UI service serialization (`pkg/ui_service/service.go`) -/

/-- Serialization of a Go `*big.Int` via `(*big.Int).String()`: `math/big` renders a nil
receiver as the string below instead of dereferencing it. This is what
`agentDataFromAgentInfo` produces for `AgentData.PromptPrice` when `info.PromptPrice` is
nil. -/
def bigIntString : Option Nat → String
  | none => "<nil>"
  | some n => toString n

/-! ## Derived descriptions used by the proofs

`consumedEntry`/`consumedUsage` spell out, in one flattened expression, the usage record
that `StorePromptConsumedData` stores for the event's agent; the lemma
`storePromptConsumedData_usages_self` below proves the correspondence. -/

/-- The `AgentUsageLatestPrompt` entry appended by `StorePromptConsumedData db addr ev`. -/
def consumedEntry (db : UsageDb) (addr : Addr) (ev : PromptConsumedEvent) :
    AgentUsageLatestPrompt :=
  { promptID := ev.promptID
    tweetID := ((db.promptCache (addr, ev.promptID)).map (fun d => d.tweetID)).getD 0
    prompt := ((db.promptCache (addr, ev.promptID)).map (fun d => d.prompt)).getD ""
    isSuccess := if ev.drainedTo = addr then false else true
    drainedTo := if ev.drainedTo = addr then 0 else ev.drainedTo }

/-- The `AgentUsage` record stored for `addr` by `StorePromptConsumedData db addr ev`. -/
def consumedUsage (db : UsageDb) (addr : Addr) (ev : PromptConsumedEvent) : AgentUsage :=
  let u0 := getOrCreateAgentUsage db addr
  let l := u0.latestPrompts ++ [consumedEntry db addr ev]
  { breakAttempts := u0.breakAttempts + 1
    isDrained := if ev.drainedTo = addr then u0.isDrained else true
    latestPrompts := if db.maxPrompts < l.length then l.tail else l }

/-- An empty usage database with the given `maxPrompts` cap (the state
`NewAgentUsageIndexerDatabaseInMemory(0, maxPrompts)` builds). -/
def emptyUsageDb (maxPrompts : Nat) : UsageDb :=
  { usages := fun _ => none, maxPrompts := maxPrompts,
    promptCache := fun _ => none, lastIndexedBlock := 0 }

/-- A small concrete agent-indexer state: creator `9` has registered agents
`11`, `12`, `13` (in that order); no other creator has any. -/
def sampleAgentIndexer : AgentIndexerState :=
  { db :=
      { infos := fun _ => none
        byCreator := fun q => if q = 9 then [11, 12, 13] else []
        lastIndexedBlock := 2 }
    registryAddress := 1 }

/-! # Theorems -/

theorem setKey_same {κ α : Type} [DecidableEq κ] (f : κ → Option α) (k : κ) (v : α) :
    setKey f k v k = some v := by
  simp [setKey]

theorem setKey_other {κ α : Type} [DecidableEq κ] (f : κ → Option α) (k q : κ) (v : α)
    (h : q ≠ k) : setKey f k v q = f q := by
  simp [setKey, h]

theorem storePromptConsumedData_usages_self (db : UsageDb) (addr : Addr)
    (ev : PromptConsumedEvent) :
    (StorePromptConsumedData db addr ev).usages addr = some (consumedUsage db addr ev) := by
  unfold StorePromptConsumedData consumedUsage consumedEntry
  by_cases h : ev.drainedTo = addr <;>
    cases hc : db.promptCache (addr, ev.promptID) <;>
      simp [h, hc, setKey_same]

theorem storePromptConsumedData_promptCache (db : UsageDb) (addr : Addr)
    (ev : PromptConsumedEvent) :
    (StorePromptConsumedData db addr ev).promptCache =
      (match db.promptCache (addr, ev.promptID) with
       | none => db.promptCache
       | some _ => delKey db.promptCache (addr, ev.promptID)) := by
  unfold StorePromptConsumedData
  cases hc : db.promptCache (addr, ev.promptID) <;> simp [hc]

theorem consumedUsage_getLast (db : UsageDb) (addr : Addr) (ev : PromptConsumedEvent)
    (hK : 0 < db.maxPrompts) :
    (consumedUsage db addr ev).latestPrompts.getLast? = some (consumedEntry db addr ev) := by
  unfold consumedUsage
  by_cases hlen :
      db.maxPrompts <
        ((getOrCreateAgentUsage db addr).latestPrompts ++ [consumedEntry db addr ev]).length
  · simp only [hlen, if_pos]
    cases hl : (getOrCreateAgentUsage db addr).latestPrompts with
    | nil =>
        exfalso
        rw [hl] at hlen
        simp at hlen
        omega
    | cons a rest =>
        simp only [List.cons_append, List.tail_cons]
        exact List.getLast?_concat rest
  · simp only [hlen, if_neg, not_false_iff]
    exact List.getLast?_concat _

/-- C1: applying a `PromptConsumed` event for agent `addr` increments that agent's
`breakAttempts` by exactly one; the appended `latestPrompts` entry records success iff
`drainedTo` differs from the agent (failure stores a zero drain address); on success
`isDrained` is set to true; the append keeps at most `maxPrompts` entries by dropping the
oldest first; and with `maxPrompts = 3`, four `PromptConsumed` events with prompt ids 1..4
leave `latestPrompts` with prompt ids `[2, 3, 4]` in order. -/
theorem prompt_consumed_updates_usage (db : UsageDb) (addr : Addr) (ev : PromptConsumedEvent)
    (hK : 0 < db.maxPrompts) :
    (∃ u' p,
      (StorePromptConsumedData db addr ev).usages addr = some u' ∧
      u'.breakAttempts = (getOrCreateAgentUsage db addr).breakAttempts + 1 ∧
      u'.latestPrompts.getLast? = some p ∧
      p.promptID = ev.promptID ∧
      (p.isSuccess = true ↔ ev.drainedTo ≠ addr) ∧
      p.drainedTo = (if ev.drainedTo = addr then 0 else ev.drainedTo) ∧
      (ev.drainedTo ≠ addr → u'.isDrained = true) ∧
      ((getOrCreateAgentUsage db addr).latestPrompts.length ≤ db.maxPrompts →
        u'.latestPrompts.length ≤ db.maxPrompts) ∧
      (db.maxPrompts < (getOrCreateAgentUsage db addr).latestPrompts.length + 1 →
        u'.latestPrompts = (getOrCreateAgentUsage db addr).latestPrompts.tail ++ [p]) ∧
      ((getOrCreateAgentUsage db addr).latestPrompts.length + 1 ≤ db.maxPrompts →
        u'.latestPrompts = (getOrCreateAgentUsage db addr).latestPrompts ++ [p])) ∧
    ((StorePromptConsumedData (StorePromptConsumedData (StorePromptConsumedData
          (StorePromptConsumedData (emptyUsageDb 3)
            161 { promptID := 1, drainedTo := 161 })
          161 { promptID := 2, drainedTo := 161 })
        161 { promptID := 3, drainedTo := 161 })
      161 { promptID := 4, drainedTo := 161 }).usages 161).map
        (fun u => u.latestPrompts.map (fun q => q.promptID)) = some [2, 3, 4] := by
  constructor
  · refine ⟨consumedUsage db addr ev, consumedEntry db addr ev,
      storePromptConsumedData_usages_self db addr ev, rfl,
      consumedUsage_getLast db addr ev hK, rfl, ?_, rfl, ?_, ?_, ?_, ?_⟩
    · by_cases h : ev.drainedTo = addr <;> simp [consumedEntry, h]
    · intro hne
      simp [consumedUsage, hne]
    · intro hle
      simp only [consumedUsage]
      by_cases hlen : db.maxPrompts <
          ((getOrCreateAgentUsage db addr).latestPrompts ++ [consumedEntry db addr ev]).length
      · rw [if_pos hlen]
        simp only [List.length_tail, List.length_append, List.length_singleton]
        omega
      · rw [if_neg hlen]
        simp only [List.length_append, List.length_singleton] at hlen ⊢
        omega
    · intro hgt
      simp only [consumedUsage]
      have hlen : db.maxPrompts <
          ((getOrCreateAgentUsage db addr).latestPrompts ++ [consumedEntry db addr ev]).length := by
        simp only [List.length_append, List.length_singleton]
        omega
      rw [if_pos hlen]
      cases hl : (getOrCreateAgentUsage db addr).latestPrompts with
      | nil =>
          exfalso
          rw [hl] at hgt
          simp at hgt
          omega
      | cons a rest => simp
    · intro hle
      simp only [consumedUsage]
      have hlen : ¬ db.maxPrompts <
          ((getOrCreateAgentUsage db addr).latestPrompts ++ [consumedEntry db addr ev]).length := by
        simp only [List.length_append, List.length_singleton]
        omega
      rw [if_neg hlen]
  · rfl

theorem prompt_consumed_updates_usage_witness :
    0 < (emptyUsageDb 3).maxPrompts ∧
    ((∃ u' p,
      (StorePromptConsumedData (emptyUsageDb 3) 161
          { promptID := 7, drainedTo := 200 }).usages 161 = some u' ∧
      u'.breakAttempts =
        (getOrCreateAgentUsage (emptyUsageDb 3) 161).breakAttempts + 1 ∧
      u'.latestPrompts.getLast? = some p ∧
      p.promptID = 7 ∧
      (p.isSuccess = true ↔ (200 : Addr) ≠ 161) ∧
      p.drainedTo = (if (200 : Addr) = 161 then 0 else 200) ∧
      ((200 : Addr) ≠ 161 → u'.isDrained = true) ∧
      ((getOrCreateAgentUsage (emptyUsageDb 3) 161).latestPrompts.length ≤
          (emptyUsageDb 3).maxPrompts →
        u'.latestPrompts.length ≤ (emptyUsageDb 3).maxPrompts) ∧
      ((emptyUsageDb 3).maxPrompts <
          (getOrCreateAgentUsage (emptyUsageDb 3) 161).latestPrompts.length + 1 →
        u'.latestPrompts =
          (getOrCreateAgentUsage (emptyUsageDb 3) 161).latestPrompts.tail ++ [p]) ∧
      ((getOrCreateAgentUsage (emptyUsageDb 3) 161).latestPrompts.length + 1 ≤
          (emptyUsageDb 3).maxPrompts →
        u'.latestPrompts =
          (getOrCreateAgentUsage (emptyUsageDb 3) 161).latestPrompts ++ [p])) ∧
    ((StorePromptConsumedData (StorePromptConsumedData (StorePromptConsumedData
          (StorePromptConsumedData (emptyUsageDb 3)
            161 { promptID := 1, drainedTo := 161 })
          161 { promptID := 2, drainedTo := 161 })
        161 { promptID := 3, drainedTo := 161 })
      161 { promptID := 4, drainedTo := 161 }).usages 161).map
        (fun u => u.latestPrompts.map (fun q => q.promptID)) = some [2, 3, 4]) :=
  ⟨by decide,
   prompt_consumed_updates_usage (emptyUsageDb 3) 161
     { promptID := 7, drainedTo := 200 } (by decide)⟩

/-- C5: a `PromptConsumed` whose `(agent, promptId)` key has no cache entry is still
recorded as an attempt: `breakAttempts` increases by one and the appended entry carries
`tweetId = 0` and `prompt = ""`; and a lone `PromptConsumed(agent, promptId=42,
drainedTo=agent)` on a fresh database (default `maxPrompts = 10`) yields exactly the entry
`{promptId: 42, tweetId: 0, prompt: "", isSuccess: false, drainedTo: 0}`. -/
theorem prompt_consumed_cache_miss_degrades (db : UsageDb) (addr : Addr)
    (ev : PromptConsumedEvent) (hK : 0 < db.maxPrompts)
    (hmiss : db.promptCache (addr, ev.promptID) = none) :
    (∃ u' p,
      (StorePromptConsumedData db addr ev).usages addr = some u' ∧
      u'.breakAttempts = (getOrCreateAgentUsage db addr).breakAttempts + 1 ∧
      u'.latestPrompts.getLast? = some p ∧
      p.tweetID = 0 ∧ p.prompt = "") ∧
    ((StorePromptConsumedData (emptyUsageDb 10) 161
        { promptID := 42, drainedTo := 161 }).usages 161 =
      some { breakAttempts := 1, isDrained := false,
             latestPrompts := [{ promptID := 42, tweetID := 0, prompt := "",
                                 isSuccess := false, drainedTo := 0 }] }) := by
  constructor
  · refine ⟨consumedUsage db addr ev, consumedEntry db addr ev,
      storePromptConsumedData_usages_self db addr ev, rfl,
      consumedUsage_getLast db addr ev hK, ?_, ?_⟩
    · simp [consumedEntry, hmiss]
    · simp [consumedEntry, hmiss]
  · rfl

theorem prompt_consumed_cache_miss_degrades_witness :
    (0 < (emptyUsageDb 10).maxPrompts ∧
     (emptyUsageDb 10).promptCache (161, 42) = none) ∧
    ((∃ u' p,
      (StorePromptConsumedData (emptyUsageDb 10) 161
          { promptID := 42, drainedTo := 161 }).usages 161 = some u' ∧
      u'.breakAttempts = (getOrCreateAgentUsage (emptyUsageDb 10) 161).breakAttempts + 1 ∧
      u'.latestPrompts.getLast? = some p ∧
      p.tweetID = 0 ∧ p.prompt = "") ∧
    ((StorePromptConsumedData (emptyUsageDb 10) 161
        { promptID := 42, drainedTo := 161 }).usages 161 =
      some { breakAttempts := 1, isDrained := false,
             latestPrompts := [{ promptID := 42, tweetID := 0, prompt := "",
                                 isSuccess := false, drainedTo := 0 }] })) :=
  ⟨⟨by decide, rfl⟩,
   prompt_consumed_cache_miss_degrades (emptyUsageDb 10) 161
     { promptID := 42, drainedTo := 161 } (by decide) rfl⟩

theorem delKey_same {κ α : Type} [DecidableEq κ] (f : κ → Option α) (k : κ) :
    delKey f k k = none := by
  simp [delKey]

/-- C4: when the `PromptPaid` cache entry for `(agent, promptId)` is still present, the
`PromptConsumed` for the same key produces a `latestPrompts` entry whose `tweetId` and
`prompt` equal the paid event's values, and removes the cache entry, so a second
`PromptConsumed` for the same key finds nothing and degrades to `tweetId = 0`,
`prompt = ""`. -/
theorem prompt_paid_consumed_roundtrip (db : UsageDb) (addr : Addr)
    (pev : PromptPaidEvent) (cev : PromptConsumedEvent)
    (hK : 0 < db.maxPrompts) (hid : cev.promptID = pev.promptID) :
    ∃ u' p,
      (StorePromptConsumedData (StorePromptPaidData db addr pev) addr cev).usages addr =
        some u' ∧
      u'.latestPrompts.getLast? = some p ∧
      p.tweetID = pev.tweetID ∧ p.prompt = pev.prompt ∧
      (StorePromptConsumedData (StorePromptPaidData db addr pev) addr cev).promptCache
        (addr, cev.promptID) = none ∧
      (∃ u2 p2,
        (StorePromptConsumedData
          (StorePromptConsumedData (StorePromptPaidData db addr pev) addr cev)
          addr cev).usages addr = some u2 ∧
        u2.latestPrompts.getLast? = some p2 ∧ p2.tweetID = 0 ∧ p2.prompt = "") := by
  have hcache : (StorePromptPaidData db addr pev).promptCache (addr, cev.promptID) =
      some { tweetID := pev.tweetID, prompt := pev.prompt } := by
    simp [StorePromptPaidData, hid, setKey]
  have hafter : (StorePromptConsumedData (StorePromptPaidData db addr pev) addr cev).promptCache
      (addr, cev.promptID) = none := by
    rw [storePromptConsumedData_promptCache, hcache]
    exact delKey_same _ _
  refine ⟨consumedUsage (StorePromptPaidData db addr pev) addr cev,
    consumedEntry (StorePromptPaidData db addr pev) addr cev,
    storePromptConsumedData_usages_self _ _ _,
    consumedUsage_getLast _ _ _ hK, ?_, ?_, hafter, ?_⟩
  · simp [consumedEntry, hcache]
  · simp [consumedEntry, hcache]
  · refine ⟨consumedUsage (StorePromptConsumedData (StorePromptPaidData db addr pev) addr cev)
        addr cev,
      consumedEntry (StorePromptConsumedData (StorePromptPaidData db addr pev) addr cev)
        addr cev,
      storePromptConsumedData_usages_self _ _ _,
      consumedUsage_getLast _ _ _ hK, ?_, ?_⟩
    · simp [consumedEntry, hafter]
    · simp [consumedEntry, hafter]

theorem prompt_paid_consumed_roundtrip_witness :
    (0 < (emptyUsageDb 10).maxPrompts ∧ (1 : Nat) = 1) ∧
    (∃ u' p,
      (StorePromptConsumedData
        (StorePromptPaidData (emptyUsageDb 10) 161 { promptID := 1, tweetID := 555, prompt := "hi" })
        161 { promptID := 1, drainedTo := 161 }).usages 161 = some u' ∧
      u'.latestPrompts.getLast? = some p ∧
      p.tweetID = 555 ∧ p.prompt = "hi" ∧
      (StorePromptConsumedData
        (StorePromptPaidData (emptyUsageDb 10) 161 { promptID := 1, tweetID := 555, prompt := "hi" })
        161 { promptID := 1, drainedTo := 161 }).promptCache (161, 1) = none ∧
      (∃ u2 p2,
        (StorePromptConsumedData
          (StorePromptConsumedData
            (StorePromptPaidData (emptyUsageDb 10) 161
              { promptID := 1, tweetID := 555, prompt := "hi" })
            161 { promptID := 1, drainedTo := 161 })
          161 { promptID := 1, drainedTo := 161 }).usages 161 = some u2 ∧
        u2.latestPrompts.getLast? = some p2 ∧ p2.tweetID = 0 ∧ p2.prompt = "")) :=
  ⟨⟨by decide, rfl⟩,
   prompt_paid_consumed_roundtrip (emptyUsageDb 10) 161
     { promptID := 1, tweetID := 555, prompt := "hi" }
     { promptID := 1, drainedTo := 161 } (by decide) rfl⟩

theorem storePromptConsumedData_usages_other (db : UsageDb) (addr : Addr)
    (ev : PromptConsumedEvent) (X : Addr) (h : X ≠ addr) :
    (StorePromptConsumedData db addr ev).usages X = db.usages X := by
  unfold StorePromptConsumedData
  simp [setKey, h]

theorem applySystemEvent_preserves (s : SystemState) (ev : Event)
    (h : UsageBackedByInfo s) : UsageBackedByInfo (applySystemEvent s ev) := by
  obtain ⟨fromAddr, payload⟩ := ev
  intro X hX
  cases payload with
  | agentRegistered agent creator name sp price token endT =>
      simp only [applySystemEvent, usageOnEvent, onAgentRegistered] at hX ⊢
      by_cases hr : fromAddr = s.agent.registryAddress
      · simp only [hr, if_pos] at hX ⊢
        by_cases hXa : X = agent
        · subst hXa
          simp [SetAgentInfo, setKey]
        · simp only [StoreAgent, setKey] at hX
          simp only [hXa, if_false] at hX
          simp only [SetAgentInfo, setKey]
          simp only [hXa, if_false]
          exact h X hX
      · simp only [hr, if_neg, not_false_iff] at hX ⊢
        exact h X hX
  | promptPaid agent pid tid prompt =>
      have hag : onAgentRegistered s.agent
          { fromAddress := fromAddr, payload := .promptPaid agent pid tid prompt } = s.agent := by
        unfold onAgentRegistered
        split <;> rfl
      simp only [applySystemEvent, usageOnEvent, hag] at hX ⊢
      by_cases hg : GetAgentExists s.usage agent = true
      · simp only [hg, if_pos, StorePromptPaidData] at hX
        exact h X hX
      · simp only [hg, if_neg, not_false_iff] at hX
        exact h X hX
  | promptConsumed agent pid drainedTo =>
      have hag : onAgentRegistered s.agent
          { fromAddress := fromAddr, payload := .promptConsumed agent pid drainedTo } = s.agent := by
        unfold onAgentRegistered
        split <;> rfl
      simp only [applySystemEvent, usageOnEvent, hag] at hX ⊢
      by_cases hg : GetAgentExists s.usage agent = true
      · simp only [hg, if_pos] at hX
        by_cases hXa : X = agent
        · subst hXa
          apply h
          simpa [GetAgentExists] using hg
        · rw [storePromptConsumedData_usages_other _ _ _ _ hXa] at hX
          exact h X hX
      · simp only [hg, if_neg, not_false_iff] at hX
        exact h X hX
  | tokenAdded token mpp mib =>
      have hag : onAgentRegistered s.agent
          { fromAddress := fromAddr, payload := .tokenAdded token mpp mib } = s.agent := by
        unfold onAgentRegistered
        split <;> rfl
      simp only [applySystemEvent, usageOnEvent, hag] at hX ⊢
      exact h X hX
  | tokenRemoved token =>
      have hag : onAgentRegistered s.agent
          { fromAddress := fromAddr, payload := .tokenRemoved token } = s.agent := by
        unfold onAgentRegistered
        split <;> rfl
      simp only [applySystemEvent, usageOnEvent, hag] at hX ⊢
      exact h X hX

theorem applyEvents_backed (evs : List Event) :
    ∀ s, UsageBackedByInfo s → UsageBackedByInfo (evs.foldl applySystemEvent s) := by
  induction evs with
  | nil =>
      intro s h
      simpa using h
  | cons e t ih =>
      intro s h
      simp only [List.foldl_cons]
      exact ih _ (applySystemEvent_preserves s e h)

/-- C2: over any sequence of applied events starting from the empty projections, if the
usage projection holds an `AgentUsage` entry for address `X`, the agent projection holds
an `AgentInfo` entry for `X`: no event sequence creates a usage entry for an address that
was never registered through the registry. -/
theorem usage_entry_implies_registered (registry maxPrompts : Nat) (evs : List Event)
    (X : Addr)
    (h : ((applyEvents registry maxPrompts evs).usage.usages X).isSome = true) :
    ((applyEvents registry maxPrompts evs).agent.db.infos X).isSome = true := by
  have h0 : UsageBackedByInfo (initSystem registry maxPrompts) := by
    intro Y hY
    simp [initSystem] at hY
  exact applyEvents_backed evs _ h0 X h

theorem usage_entry_implies_registered_witness :
    ((applyEvents 1 3
        [{ fromAddress := 1,
           payload := .agentRegistered 161 200 "alice" "sp" 100 300 2000 },
         { fromAddress := 161, payload := .promptConsumed 161 1 161 }]).usage.usages
        161).isSome = true ∧
    ((applyEvents 1 3
        [{ fromAddress := 1,
           payload := .agentRegistered 161 200 "alice" "sp" 100 300 2000 },
         { fromAddress := 161, payload := .promptConsumed 161 1 161 }]).agent.db.infos
        161).isSome = true :=
  ⟨rfl,
   usage_entry_implies_registered 1 3
     [{ fromAddress := 1, payload := .agentRegistered 161 200 "alice" "sp" 100 300 2000 },
      { fromAddress := 161, payload := .promptConsumed 161 1 161 }] 161 rfl⟩

/-- C3: after a registry-emitted `TokenRemoved` for token `t`, the token's entry is the
sentinel with `minPromptPrice = 0` (reported unsupported for registration checks), while
a rate that `GetTokenRate` returned before the removal is still returned afterwards. -/
theorem token_removed_preserves_rate (s : TokenIndexerState) (ev : Event) (t : Addr) (r : Nat)
    (hfrom : ev.fromAddress = s.registryAddress)
    (hpayload : ev.payload = .tokenRemoved t)
    (hrate : GetTokenRate s.db t = (some r, true)) :
    GetTokenRate (onTokenRemoved s ev).db t = (some r, true) ∧
    GetTokenMinPromptPrice (onTokenRemoved s ev).db t = (some 0, true) := by
  have honr : onTokenRemoved s ev = { s with db := SetTokenInfo s.db t none } := by
    unfold onTokenRemoved
    rw [hpayload, hfrom]
    simp
  rw [honr]
  cases hold : s.db.tokens t with
  | none =>
      exfalso
      unfold GetTokenRate GetTokenInfo at hrate
      simp only [hold] at hrate
      simp at hrate
  | some old =>
      unfold GetTokenRate GetTokenInfo at hrate
      simp only [hold] at hrate
      by_cases hz : old.rateTime = 0
      · exfalso
        simp [hz] at hrate
      · rw [if_neg hz] at hrate
        have hr2 : old.rate = some r := by
          simpa using congrArg Prod.fst hrate
        constructor
        · unfold GetTokenRate GetTokenInfo SetTokenInfo
          rw [hold]
          simp [setKey, hz, hr2]
        · unfold GetTokenMinPromptPrice GetTokenInfo SetTokenInfo
          rw [hold]
          simp [setKey]

theorem token_removed_preserves_rate_witness :
    (({ fromAddress := 1, payload := .tokenRemoved 5 } : Event).fromAddress =
      ({ db :=
           { tokens := fun q =>
               if q = 5 then
                 some { minPromptPrice := 7, minInitialBalance := 8,
                        rate := some 9, rateTime := 3 }
               else none
             lastIndexedBlock := 0 }
         registryAddress := 1 } : TokenIndexerState).registryAddress) ∧
    (GetTokenRate (onTokenRemoved
        { db :=
            { tokens := fun q =>
                if q = 5 then
                  some { minPromptPrice := 7, minInitialBalance := 8,
                         rate := some 9, rateTime := 3 }
                else none
              lastIndexedBlock := 0 }
          registryAddress := 1 }
        { fromAddress := 1, payload := .tokenRemoved 5 }).db 5 = (some 9, true) ∧
     GetTokenMinPromptPrice (onTokenRemoved
        { db :=
            { tokens := fun q =>
                if q = 5 then
                  some { minPromptPrice := 7, minInitialBalance := 8,
                         rate := some 9, rateTime := 3 }
                else none
              lastIndexedBlock := 0 }
          registryAddress := 1 }
        { fromAddress := 1, payload := .tokenRemoved 5 }).db 5 = (some 0, true)) :=
  ⟨rfl,
   token_removed_preserves_rate
     { db :=
         { tokens := fun q =>
             if q = 5 then
               some { minPromptPrice := 7, minInitialBalance := 8,
                      rate := some 9, rateTime := 3 }
             else none
           lastIndexedBlock := 0 }
       registryAddress := 1 }
     { fromAddress := 1, payload := .tokenRemoved 5 } 5 9 rfl rfl rfl⟩

/-- C9: `GetTokenRate t` reports found exactly when the token has an entry whose
`rateTime` is not the zero instant; a token that exists but was never refreshed is
reported not found, and on success the stored rate is returned. -/
theorem getTokenRate_found_iff_refreshed (db : TokenDb) (t : Addr) :
    ((GetTokenRate db t).2 = true ↔
      ∃ info, GetTokenInfo db t = some info ∧ info.rateTime ≠ 0) ∧
    (∀ info, GetTokenInfo db t = some info → info.rateTime ≠ 0 →
      GetTokenRate db t = (info.rate, true)) ∧
    (∀ info, GetTokenInfo db t = some info → info.rateTime = 0 →
      GetTokenRate db t = (none, false)) ∧
    (GetTokenInfo db t = none → GetTokenRate db t = (none, false)) := by
  unfold GetTokenRate
  cases hold : GetTokenInfo db t with
  | none => simp
  | some info =>
      by_cases hz : info.rateTime = 0 <;> simp [hz]

theorem getTokenRate_found_iff_refreshed_witness :
    GetTokenRate
      { tokens := fun q =>
          if q = 5 then
            some { minPromptPrice := 1, minInitialBalance := 2, rate := some 9, rateTime := 3 }
          else if q = 6 then
            some { minPromptPrice := 1, minInitialBalance := 2, rate := some 4, rateTime := 0 }
          else none
        lastIndexedBlock := 0 } 5 = (some 9, true) ∧
    GetTokenRate
      { tokens := fun q =>
          if q = 5 then
            some { minPromptPrice := 1, minInitialBalance := 2, rate := some 9, rateTime := 3 }
          else if q = 6 then
            some { minPromptPrice := 1, minInitialBalance := 2, rate := some 4, rateTime := 0 }
          else none
        lastIndexedBlock := 0 } 6 = (none, false) :=
  ⟨(getTokenRate_found_iff_refreshed
      { tokens := fun q =>
          if q = 5 then
            some { minPromptPrice := 1, minInitialBalance := 2, rate := some 9, rateTime := 3 }
          else if q = 6 then
            some { minPromptPrice := 1, minInitialBalance := 2, rate := some 4, rateTime := 0 }
          else none
        lastIndexedBlock := 0 } 5).2.1
      { minPromptPrice := 1, minInitialBalance := 2, rate := some 9, rateTime := 3 }
      rfl (by decide),
   (getTokenRate_found_iff_refreshed
      { tokens := fun q =>
          if q = 5 then
            some { minPromptPrice := 1, minInitialBalance := 2, rate := some 9, rateTime := 3 }
          else if q = 6 then
            some { minPromptPrice := 1, minInitialBalance := 2, rate := some 4, rateTime := 0 }
          else none
        lastIndexedBlock := 0 } 6).2.2.1
      { minPromptPrice := 1, minInitialBalance := 2, rate := some 4, rateTime := 0 }
      rfl rfl⟩

/-- C8: an event whose emitting address differs from the configured registry address
leaves the projection it is applied to unchanged: a spoofed `AgentRegistered` adds no
`AgentInfo`, and a spoofed `TokenAdded`/`TokenRemoved` leaves the token set unchanged. -/
theorem spoofed_events_do_not_mutate (ai : AgentIndexerState) (ts : TokenIndexerState)
    (ev1 ev2 ev3 : Event)
    (h1 : ev1.fromAddress ≠ ai.registryAddress)
    (h2 : ev2.fromAddress ≠ ts.registryAddress)
    (h3 : ev3.fromAddress ≠ ts.registryAddress) :
    onAgentRegistered ai ev1 = ai ∧ onTokenAdded ts ev2 = ts ∧ onTokenRemoved ts ev3 = ts := by
  refine ⟨?_, ?_, ?_⟩
  · unfold onAgentRegistered
    rw [if_neg h1]
  · unfold onTokenAdded
    rw [if_neg h2]
  · unfold onTokenRemoved
    rw [if_neg h3]

theorem spoofed_events_do_not_mutate_witness :
    onAgentRegistered
      { db := { infos := fun _ => none, byCreator := fun _ => [], lastIndexedBlock := 0 }
        registryAddress := 1 }
      { fromAddress := 57005, payload := .agentRegistered 161 200 "x" "y" 1 2 3 } =
      { db := { infos := fun _ => none, byCreator := fun _ => [], lastIndexedBlock := 0 }
        registryAddress := 1 } ∧
    onTokenAdded
      { db := { tokens := fun _ => none, lastIndexedBlock := 0 }, registryAddress := 1 }
      { fromAddress := 57005, payload := .tokenAdded 5 10 20 } =
      { db := { tokens := fun _ => none, lastIndexedBlock := 0 }, registryAddress := 1 } ∧
    onTokenRemoved
      { db := { tokens := fun _ => none, lastIndexedBlock := 0 }, registryAddress := 1 }
      { fromAddress := 57005, payload := .tokenRemoved 5 } =
      { db := { tokens := fun _ => none, lastIndexedBlock := 0 }, registryAddress := 1 } :=
  spoofed_events_do_not_mutate
    { db := { infos := fun _ => none, byCreator := fun _ => [], lastIndexedBlock := 0 }
      registryAddress := 1 }
    { db := { tokens := fun _ => none, lastIndexedBlock := 0 }, registryAddress := 1 }
    { fromAddress := 57005, payload := .agentRegistered 161 200 "x" "y" 1 2 3 }
    { fromAddress := 57005, payload := .tokenAdded 5 10 20 }
    { fromAddress := 57005, payload := .tokenRemoved 5 }
    (by decide) (by decide) (by decide)

/-- C7: `GetAgentsByCreator` reports not-found exactly when `start` is at least the
number of agents registered by the creator (so a creator with zero agents is not-found
even at `start = 0`); otherwise it returns the infos at positions
`[start, min(start+limit, count))` of the creator's registration-ordered list, with the
total count and last indexed block; and registration (`SetAgentInfo`) appends to that
ordered list. -/
theorem getAgentsByCreator_pagination (i : AgentIndexerState) (creator : Addr)
    (start limit : Nat) :
    (GetAgentsByCreator i creator start limit = none ↔
      (GetAddressesByCreator i.db creator).length ≤ start) ∧
    (∀ r, GetAgentsByCreator i creator start limit = some r →
      r.agents = (((GetAddressesByCreator i.db creator).drop start).take
          (min (start + limit) (GetAddressesByCreator i.db creator).length - start)).map
          (fun a => (i.db.infos a).getD default) ∧
      r.agentCount = (GetAddressesByCreator i.db creator).length ∧
      r.lastBlock = i.db.lastIndexedBlock) ∧
    (∀ (db : AgentDb) (a : Addr) (info : AgentInfo), info.creator = some creator →
      GetAddressesByCreator (SetAgentInfo db a info) creator =
        GetAddressesByCreator db creator ++ [a]) := by
  have hmin : (if (GetAddressesByCreator i.db creator).length < start + limit
        then (GetAddressesByCreator i.db creator).length else start + limit) =
      min (start + limit) (GetAddressesByCreator i.db creator).length := by
    by_cases h : (GetAddressesByCreator i.db creator).length < start + limit
    · rw [if_pos h, Nat.min_eq_right (le_of_lt h)]
    · rw [if_neg h, Nat.min_eq_left (Nat.le_of_not_lt h)]
  refine ⟨?_, ?_, ?_⟩
  · unfold GetAgentsByCreator
    by_cases hlen : (GetAddressesByCreator i.db creator).length ≤ start
    · simp [hlen]
    · simp [hlen]
  · intro r hr
    unfold GetAgentsByCreator at hr
    by_cases hlen : (GetAddressesByCreator i.db creator).length ≤ start
    · simp [hlen] at hr
    · rw [if_neg hlen] at hr
      rw [hmin] at hr
      have hr2 := (Option.some.injEq _ _).mp hr
      subst hr2
      exact ⟨rfl, rfl, rfl⟩
  · intro db a info hc
    unfold SetAgentInfo GetAddressesByCreator
    rw [hc]
    simp

theorem getAgentsByCreator_pagination_witness :
    (GetAgentsByCreator sampleAgentIndexer 10 0 3 = none) ∧
    (({ agents := [default, default], agentCount := 3, lastBlock := 2 } :
        AgentsByCreatorResult).agents =
      (((GetAddressesByCreator sampleAgentIndexer.db 9).drop 1).take
          (min (1 + 5) (GetAddressesByCreator sampleAgentIndexer.db 9).length - 1)).map
        (fun a => (sampleAgentIndexer.db.infos a).getD default) ∧
     ({ agents := [default, default], agentCount := 3, lastBlock := 2 } :
        AgentsByCreatorResult).agentCount =
       (GetAddressesByCreator sampleAgentIndexer.db 9).length ∧
     ({ agents := [default, default], agentCount := 3, lastBlock := 2 } :
        AgentsByCreatorResult).lastBlock = sampleAgentIndexer.db.lastIndexedBlock) ∧
    (GetAddressesByCreator (SetAgentInfo sampleAgentIndexer.db 14
        { address := some 14, creator := some 9, name := "n", systemPrompt := "s",
          promptPrice := some 5, tokenAddress := some 6, endTime := 7 }) 9 =
      GetAddressesByCreator sampleAgentIndexer.db 9 ++ [14]) :=
  ⟨(getAgentsByCreator_pagination sampleAgentIndexer 10 0 3).1.mpr (by decide),
   (getAgentsByCreator_pagination sampleAgentIndexer 9 1 5).2.1
     { agents := [default, default], agentCount := 3, lastBlock := 2 } rfl,
   (getAgentsByCreator_pagination sampleAgentIndexer 9 0 0).2.2
     sampleAgentIndexer.db 14
     { address := some 14, creator := some 9, name := "n", systemPrompt := "s",
       promptPrice := some 5, tokenAddress := some 6, endTime := 7 } rfl⟩

theorem fetchAgentInfo_trace (registry : Addr) (env : FetchEnv) (addr : Addr) :
    ∀ c ∈ (fetchAgentInfo registry env addr).2,
      c.blockTag = BlockTag.latest ∧
      c.selector ∈ [isAgentRegisteredSelector, getNameSelector, getSystemPromptSelector] := by
  intro c hc
  simp only [fetchAgentInfo] at hc
  cases h1 : env.rpcCall (RpcCall.mk registry isAgentRegisteredSelector [addr] BlockTag.latest) with
  | error e =>
      simp only [h1] at hc
      simp at hc
      subst hc
      exact ⟨rfl, by simp⟩
  | ok resp =>
      simp only [h1] at hc
      by_cases h2 : resp.head? = some 1
      · rw [if_neg (not_not_intro h2)] at hc
        cases h3 : env.rpcCall (RpcCall.mk addr getNameSelector [] BlockTag.latest) with
        | error e =>
            simp only [h3] at hc
            simp at hc
            rcases hc with rfl | rfl
            · exact ⟨rfl, by simp⟩
            · exact ⟨rfl, by simp⟩
        | ok nameResp =>
            simp only [h3] at hc
            cases h4 : env.byteArrToString nameResp with
            | error e =>
                simp only [h4] at hc
                simp at hc
                rcases hc with rfl | rfl
                · exact ⟨rfl, by simp⟩
                · exact ⟨rfl, by simp⟩
            | ok name =>
                simp only [h4] at hc
                cases h5 : env.rpcCall (RpcCall.mk addr getSystemPromptSelector [] BlockTag.latest) with
                | error e =>
                    simp only [h5] at hc
                    simp at hc
                    rcases hc with rfl | rfl | rfl
                    · exact ⟨rfl, by simp⟩
                    · exact ⟨rfl, by simp⟩
                    · exact ⟨rfl, by simp⟩
                | ok spResp =>
                    simp only [h5] at hc
                    cases h6 : env.byteArrToString spResp with
                    | error e =>
                        simp only [h6] at hc
                        simp at hc
                        rcases hc with rfl | rfl | rfl
                        · exact ⟨rfl, by simp⟩
                        · exact ⟨rfl, by simp⟩
                        · exact ⟨rfl, by simp⟩
                    | ok sp =>
                        simp only [h6] at hc
                        simp at hc
                        rcases hc with rfl | rfl | rfl
                        · exact ⟨rfl, by simp⟩
                        · exact ⟨rfl, by simp⟩
                        · exact ⟨rfl, by simp⟩
      · rw [if_pos h2] at hc
        simp at hc
        subst hc
        exact ⟨rfl, by simp⟩

/-- C6: `GetOrFetchAgentInfo(addr, block)` returns the cached info whenever one exists;
otherwise, when `lastIndexedBlock ≥ block`, it returns the "agent not found" error
without issuing any RPC call (empty trace); when `lastIndexedBlock < block`, it falls
through to `fetchAgentInfo`, whose RPC calls all use the "latest" block tag and only the
`is_agent_registered`, `get_name` and `get_system_prompt` selectors. -/
theorem getOrFetchAgentInfo_cases (i : AgentIndexerState) (env : FetchEnv) (addr : Addr)
    (block : Nat) :
    (∀ info, i.db.infos addr = some info →
      GetOrFetchAgentInfo i env addr block = (.ok info, [])) ∧
    (i.db.infos addr = none → block ≤ i.db.lastIndexedBlock →
      GetOrFetchAgentInfo i env addr block = (.error "agent not found", [])) ∧
    (i.db.infos addr = none → i.db.lastIndexedBlock < block →
      GetOrFetchAgentInfo i env addr block = fetchAgentInfo i.registryAddress env addr ∧
      ∀ c ∈ (GetOrFetchAgentInfo i env addr block).2,
        c.blockTag = BlockTag.latest ∧
        c.selector ∈ [isAgentRegisteredSelector, getNameSelector, getSystemPromptSelector]) := by
  refine ⟨?_, ?_, ?_⟩
  · intro info hinfo
    unfold GetOrFetchAgentInfo
    simp only [hinfo]
  · intro hnone hle
    unfold GetOrFetchAgentInfo
    simp only [hnone]
    rw [if_pos hle]
  · intro hnone hlt
    unfold GetOrFetchAgentInfo
    simp only [hnone]
    rw [if_neg (by omega)]
    exact ⟨rfl, fetchAgentInfo_trace i.registryAddress env addr⟩

theorem getOrFetchAgentInfo_cases_witness :
    GetOrFetchAgentInfo
      { db :=
          { infos := fun q =>
              if q = 7 then
                some { address := some 7, creator := none, name := "x", systemPrompt := "y",
                       promptPrice := some 1, tokenAddress := some 2, endTime := 3 }
              else none
            byCreator := fun _ => [], lastIndexedBlock := 5 }
        registryAddress := 3 }
      { rpcCall := fun _ => .ok [1], byteArrToString := fun _ => .ok "n" } 7 9 =
      (.ok { address := some 7, creator := none, name := "x", systemPrompt := "y",
             promptPrice := some 1, tokenAddress := some 2, endTime := 3 }, []) ∧
    GetOrFetchAgentInfo
      { db := { infos := fun _ => none, byCreator := fun _ => [], lastIndexedBlock := 5 }
        registryAddress := 3 }
      { rpcCall := fun _ => .ok [1], byteArrToString := fun _ => .ok "n" } 7 4 =
      (.error "agent not found", []) ∧
    (GetOrFetchAgentInfo
      { db := { infos := fun _ => none, byCreator := fun _ => [], lastIndexedBlock := 5 }
        registryAddress := 3 }
      { rpcCall := fun _ => .ok [1], byteArrToString := fun _ => .ok "n" } 7 9 =
      fetchAgentInfo
        ({ db := { infos := fun _ => none, byCreator := fun _ => [], lastIndexedBlock := 5 }
           registryAddress := 3 } : AgentIndexerState).registryAddress
        { rpcCall := fun _ => .ok [1], byteArrToString := fun _ => .ok "n" } 7 ∧
     ∀ c ∈ (GetOrFetchAgentInfo
        { db := { infos := fun _ => none, byCreator := fun _ => [], lastIndexedBlock := 5 }
          registryAddress := 3 }
        { rpcCall := fun _ => .ok [1], byteArrToString := fun _ => .ok "n" } 7 9).2,
       c.blockTag = BlockTag.latest ∧
       c.selector ∈ [isAgentRegisteredSelector, getNameSelector, getSystemPromptSelector]) :=
  ⟨(getOrFetchAgentInfo_cases
      { db :=
          { infos := fun q =>
              if q = 7 then
                some { address := some 7, creator := none, name := "x", systemPrompt := "y",
                       promptPrice := some 1, tokenAddress := some 2, endTime := 3 }
              else none
            byCreator := fun _ => [], lastIndexedBlock := 5 }
        registryAddress := 3 }
      { rpcCall := fun _ => .ok [1], byteArrToString := fun _ => .ok "n" } 7 9).1
      { address := some 7, creator := none, name := "x", systemPrompt := "y",
        promptPrice := some 1, tokenAddress := some 2, endTime := 3 } rfl,
   (getOrFetchAgentInfo_cases
      { db := { infos := fun _ => none, byCreator := fun _ => [], lastIndexedBlock := 5 }
        registryAddress := 3 }
      { rpcCall := fun _ => .ok [1], byteArrToString := fun _ => .ok "n" } 7 4).2.1
      rfl (by decide),
   (getOrFetchAgentInfo_cases
      { db := { infos := fun _ => none, byCreator := fun _ => [], lastIndexedBlock := 5 }
        registryAddress := 3 }
      { rpcCall := fun _ => .ok [1], byteArrToString := fun _ => .ok "n" } 7 9).2.2
      rfl (by decide)⟩

/-- C10: whenever the on-demand fetch path succeeds, the returned `AgentInfo` is partial
in a fixed way: only `Address`, `Name` and `SystemPrompt` are populated, while `Creator`,
`PromptPrice` and `TokenAddress` are nil and `EndTime` is 0; in particular a caller that
serializes `PromptPrice` via `(*big.Int).String()` (as `agentDataFromAgentInfo` does) is
operating on a nil pointer and renders the nil marker instead of a number. -/
theorem fetchAgentInfo_partial_shape (registry : Addr) (env : FetchEnv) (addr : Addr)
    (info : AgentInfo) (trace : List RpcCall)
    (h : fetchAgentInfo registry env addr = (.ok info, trace)) :
    info.address = some addr ∧ info.creator = none ∧ info.promptPrice = none ∧
    info.tokenAddress = none ∧ info.endTime = 0 ∧
    bigIntString info.promptPrice = "<nil>" := by
  simp only [fetchAgentInfo] at h
  cases h1 : env.rpcCall (RpcCall.mk registry isAgentRegisteredSelector [addr] BlockTag.latest) with
  | error e =>
      simp only [h1] at h
      simp at h
  | ok resp =>
      simp only [h1] at h
      by_cases h2 : resp.head? = some 1
      · rw [if_neg (not_not_intro h2)] at h
        cases h3 : env.rpcCall (RpcCall.mk addr getNameSelector [] BlockTag.latest) with
        | error e =>
            simp only [h3] at h
            simp at h
        | ok nameResp =>
            simp only [h3] at h
            cases h4 : env.byteArrToString nameResp with
            | error e =>
                simp only [h4] at h
                simp at h
            | ok name =>
                simp only [h4] at h
                cases h5 : env.rpcCall (RpcCall.mk addr getSystemPromptSelector [] BlockTag.latest) with
                | error e =>
                    simp only [h5] at h
                    simp at h
                | ok spResp =>
                    simp only [h5] at h
                    cases h6 : env.byteArrToString spResp with
                    | error e =>
                        simp only [h6] at h
                        simp at h
                    | ok sp =>
                        simp only [h6] at h
                        have hinfo := Except.ok.inj (congrArg Prod.fst h)
                        subst hinfo
                        exact ⟨rfl, rfl, rfl, rfl, rfl, rfl⟩
      · rw [if_pos h2] at h
        simp at h

theorem fetchAgentInfo_partial_shape_witness :
    ({ address := some 7, creator := none, name := "n", systemPrompt := "n",
       promptPrice := none, tokenAddress := none, endTime := 0 } : AgentInfo).address =
        some 7 ∧
    ({ address := some 7, creator := none, name := "n", systemPrompt := "n",
       promptPrice := none, tokenAddress := none, endTime := 0 } : AgentInfo).creator =
        none ∧
    ({ address := some 7, creator := none, name := "n", systemPrompt := "n",
       promptPrice := none, tokenAddress := none, endTime := 0 } : AgentInfo).promptPrice =
        none ∧
    ({ address := some 7, creator := none, name := "n", systemPrompt := "n",
       promptPrice := none, tokenAddress := none, endTime := 0 } : AgentInfo).tokenAddress =
        none ∧
    ({ address := some 7, creator := none, name := "n", systemPrompt := "n",
       promptPrice := none, tokenAddress := none, endTime := 0 } : AgentInfo).endTime = 0 ∧
    bigIntString
      ({ address := some 7, creator := none, name := "n", systemPrompt := "n",
         promptPrice := none, tokenAddress := none, endTime := 0 } : AgentInfo).promptPrice =
        "<nil>" :=
  fetchAgentInfo_partial_shape 5
    { rpcCall := fun _ => .ok [1], byteArrToString := fun _ => .ok "n" } 7
    { address := some 7, creator := none, name := "n", systemPrompt := "n",
      promptPrice := none, tokenAddress := none, endTime := 0 }
    [RpcCall.mk 5 isAgentRegisteredSelector [7] BlockTag.latest,
     RpcCall.mk 7 getNameSelector [] BlockTag.latest,
     RpcCall.mk 7 getSystemPromptSelector [] BlockTag.latest] rfl
